import Mathlib

/-!
Verification development for the conversation-thread stores of this
repository.  Python strings are modelled as `List Char` (`PyStr`), Python
dicts as association lists with first-match lookup, machine timestamps as
`Int`/`Nat`/`ℚ` as the source uses `int(time.time())`, file mtimes, or
`time.time()` floats respectively.  Fallible operations (Python `KeyError`,
raised I/O errors) are modelled with `Option`/`Except`.
-/

/-- Python strings, modelled as lists of characters. -/
abbrev PyStr : Type := List Char

/-- Coercion from a Lean string literal to the `List Char` model. -/
def str (s : String) : PyStr := s.toList

/-- First-match lookup in an association list (Python dict access `d[k]`,
returning `none` where Python raises `KeyError` / `d.get(k)` returns None). -/
def flookup {α : Type} : List (PyStr × α) → PyStr → Option α
  | [], _ => none
  | p :: l, k => if p.1 = k then some p.2 else flookup l k

/-- Replace the value stored under key `k`, keeping dict order (Python
in-place mutation of `d[k]`). Keys other than `k` are untouched. -/
def fupdate {α : Type} (l : List (PyStr × α)) (k : PyStr) (v : α) : List (PyStr × α) :=
  l.map (fun p => if p.1 = k then (k, v) else p)

/-- Remove the entry stored under key `k` (Python `del d[k]` / file removal). -/
def ferase {α : Type} (l : List (PyStr × α)) (k : PyStr) : List (PyStr × α) :=
  l.filter (fun p => p.1 ≠ k)

/-- Write (insert or overwrite) the value under key `k` (Python `d[k] = v`,
or writing a file at path `k`). -/
def fwrite {α : Type} (l : List (PyStr × α)) (k : PyStr) (v : α) : List (PyStr × α) :=
  if (flookup l k).isSome then fupdate l k v else l ++ [(k, v)]

/-- Content of a persisted file: either a value that deserializes cleanly, or
a file whose open/parse raises (permission denied, disk error, malformed JSON). -/
inductive FileData (α : Type) where
  | ok (v : α)
  | malformed
deriving DecidableEq

namespace Jerry

/-! Model of `src/JERRY_MOMANYI_MONYENYE/storage.py` and the relevant
handlers of `src/JERRY_MOMANYI_MONYENYE/app.py`. -/

/-- One message dict `{role, content, ts}` as appended by `add_message`. -/
structure JMsg where
  role : PyStr
  content : PyStr
  ts : Int
deriving DecidableEq

/-- One thread dict as produced by `new_thread`. -/
structure JThread where
  id : PyStr
  title : PyStr
  created_at : Int
  updated_at : Int
  messages : List JMsg
deriving DecidableEq

/-- The chats store: `{ "threads": {thread_id: {...}}, "order": [thread_id,...] }`. -/
structure JChats where
  threads : List (PyStr × JThread)
  order : List PyStr
deriving DecidableEq

/-- Model of `new_thread` (storage.py:59-67); the uuid4 draw and the clock
reading `int(time.time())` are passed in explicitly. -/
def new_thread (uuid : PyStr) (title : PyStr) (now : Int) : JThread :=
  { id := uuid, title := title, created_at := now, updated_at := now, messages := [] }

/-- Model of `add_message` (storage.py:70-75): `ts` defaults to the clock
reading `now`, the message is appended and `updated_at` is set to `ts`.
Python raises `KeyError` when `thread_id` is absent, modelled as `none`. -/
def add_message (chats : JChats) (thread_id : PyStr) (role : PyStr) (content : PyStr)
    (now : Int) (tsOpt : Option Int) : Option JChats :=
  let ts := tsOpt.getD now
  match flookup chats.threads thread_id with
  | none => none
  | some t =>
    some { chats with
      threads := fupdate chats.threads thread_id
        { t with messages := t.messages ++ [⟨role, content, ts⟩], updated_at := ts } }

/-- Model of `delete_thread` (storage.py:78-81): remove `thread_id` from the
threads dict when present and filter it out of `order`. -/
def delete_thread (chats : JChats) (thread_id : PyStr) : JChats :=
  { threads := ferase chats.threads thread_id,
    order := chats.order.filter (fun t => t ≠ thread_id) }

/-- Model of `_read_json` (storage.py:16-24): a missing file yields the
caller's default, and any exception while opening or parsing is swallowed by
`except Exception: return default`. -/
def read_json {α : Type} (fs : List (PyStr × FileData α)) (path : PyStr) (dflt : α) : α :=
  match flookup fs path with
  | none => dflt
  | some (FileData.ok v) => v
  | some FileData.malformed => dflt

/-- Model of `_write_json` (storage.py:27-30): serialize `data` to `path`. -/
def write_json {α : Type} (fs : List (PyStr × FileData α)) (path : PyStr) (data : α) :
    List (PyStr × FileData α) :=
  fwrite fs path (FileData.ok data)

/-- Model of the Clear-Messages button handler (app.py:149-153): empty the
active thread's messages, stamp `updated_at`, and persist via `save_chats`. -/
def clear_messages_click (chats : JChats) (active_id : PyStr) (now : Int) : Option JChats :=
  (flookup chats.threads active_id).map (fun t =>
    { chats with
      threads := fupdate chats.threads active_id { t with messages := [], updated_at := now } })

end Jerry

/-- Python's whitespace test for the ASCII characters recognised by
`str.strip()` / `str.split()`. -/
def isWs (c : Char) : Bool :=
  c = ' ' || c = '\t' || c = '\n' || c = '\x0d' || c = '\x0b' || c = '\x0c'

/-- Drop leading whitespace characters (one side of Python `str.strip()`). -/
def dropLeadingWs : List Char → List Char
  | [] => []
  | c :: cs => if isWs c then dropLeadingWs cs else c :: cs

/-- Model of Python `str.strip()`: drop whitespace at both ends. -/
def pyStrip (l : PyStr) : PyStr :=
  (dropLeadingWs (dropLeadingWs l).reverse).reverse

/-- Accumulator pass for `str.split()` (split on runs of whitespace, no
empty words); `cur` holds the current word reversed. -/
def pySplitAux : List Char → List Char → List PyStr
  | [], cur => if cur = [] then [] else [cur.reverse]
  | c :: cs, cur =>
    if isWs c then
      (if cur = [] then pySplitAux cs [] else cur.reverse :: pySplitAux cs [])
    else pySplitAux cs (c :: cur)

/-- Model of Python `str.split()` with no separator argument. -/
def pyWords (l : PyStr) : List PyStr := pySplitAux l []

/-- Model of Python `" ".join(words)`. -/
def joinSpace : List PyStr → PyStr
  | [] => []
  | [w] => w
  | w :: ws => w ++ ' ' :: joinSpace ws

namespace Jerry

/-- Model of `auto_title_from_text` (app.py:20-26): split the stripped text
into words, keep the first six, join with single spaces, truncate to 40
characters; whitespace-only input yields the placeholder. -/
def auto_title_from_text (text : PyStr) : PyStr :=
  let words := pyWords (pyStrip text)
  if words = [] then str "New Chat"
  else (joinSpace (words.take 6)).take 40

/-- Model of the auto-title step of the chat-input handler (app.py:205-207):
retitle only when the title is still the placeholder and the just-appended
user message is the thread's first message. -/
def retitle_step (t : JThread) (user_input : PyStr) : JThread :=
  if t.title = str "New Chat" ∧ t.messages.length = 1 then
    { t with title := auto_title_from_text user_input }
  else t

end Jerry

/-- Modelled from the spec (for comparison with `Jerry.auto_title_from_text`):
"take the first user message's content, strip whitespace, truncate to a fixed
character budget (e.g., 40)". -/
def derive_title_spec (content : PyStr) : PyStr := (pyStrip content).take 40

/-- One role/content message dict, the shape shared by the Soujanya, Afsal,
Mohan and Chandru samples. -/
structure Msg where
  role : PyStr
  content : PyStr
deriving DecidableEq

/-- A wall-clock reading at second resolution, the input of Python
`datetime.now().strftime(...)`. -/
structure DT where
  year : Nat
  month : Nat
  day : Nat
  hour : Nat
  minute : Nat
  second : Nat
deriving DecidableEq

/-- Decimal digit character, `chr(48 + n)` for a digit value `n`. -/
def digitChar (n : Nat) : Char := Char.ofNat (48 + n)

/-- Two-digit zero-padded decimal rendering (strftime `%m`, `%d`, `%H`,
`%M`, `%S` on their `< 100` ranges). -/
def pad2 (n : Nat) : List Char := [digitChar (n / 10), digitChar (n % 10)]

/-- Four-digit zero-padded decimal rendering (strftime `%Y` for years
below 10000). -/
def pad4 (n : Nat) : List Char :=
  [digitChar (n / 1000), digitChar (n / 100 % 10), digitChar (n / 10 % 10), digitChar (n % 10)]

/-- Validity bounds under which the strftime paddings are faithful; Python's
datetime guarantees these. -/
def DT.valid (d : DT) : Prop :=
  d.year < 10000 ∧ d.month < 100 ∧ d.day < 100 ∧ d.hour < 100 ∧ d.minute < 100 ∧ d.second < 100

instance (d : DT) : Decidable d.valid := by
  unfold DT.valid
  infer_instance

/-- Model of `datetime.now().strftime("%Y%m%d%H%M%S")`, the new-chat
identifier of `src/Karthic/chat_app.py:116`. -/
def fmtKarthic (d : DT) : PyStr :=
  pad4 d.year ++ pad2 d.month ++ pad2 d.day ++ pad2 d.hour ++ pad2 d.minute ++ pad2 d.second

/-- Model of `datetime.now().strftime("%Y%m%d_%H%M%S")`, the chat identifier
of `src/Chandru_Gandhi_Mohanraj/.../newChatAppWithExpanderSummary.py:89`. -/
def fmtChandru (d : DT) : PyStr :=
  pad4 d.year ++ pad2 d.month ++ pad2 d.day ++ '_' :: (pad2 d.hour ++ pad2 d.minute ++ pad2 d.second)

namespace Karthic

/-! Model of `src/Karthic/chat_app.py`.  The chats directory is an
association list from filename to file content paired with its modification
time (a `Nat` stamped on each write), since the chat records themselves
carry no timestamps. -/

/-- One message dict `{"user": ..., "ai": ...}` where the `ai` key may be
absent. -/
structure KMsg where
  user : PyStr
  ai : Option PyStr
deriving DecidableEq

/-- One chat file's JSON content `{"title": ..., "messages": [...]}`. -/
structure KChat where
  title : PyStr
  messages : List KMsg
deriving DecidableEq

/-- The chats directory: filename to (content, mtime). -/
abbrev KFs : Type := List (PyStr × (KChat × Nat))

/-- Filename of a chat, `f"{chat_id}.json"`. -/
def jsonName (chat_id : PyStr) : PyStr := chat_id ++ str ".json"

/-- Lexicographic order on Python strings (the order used by `sorted` on
`str`). -/
def lexLe : List Char → List Char → Bool
  | [], _ => true
  | _ :: _, [] => false
  | a :: as, b :: bs => if a = b then lexLe as bs else decide (a < b)

/-- Model of `list_chats` (chat_app.py:22-25): take every `.json` filename,
drop the 5-character extension, and sort ascending. -/
def list_chats (fs : KFs) : List PyStr :=
  (((fs.map Prod.fst).filter (fun f => (str ".json").isSuffixOf f)).map
    (fun f => f.take (f.length - 5))).mergeSort lexLe

/-- Model of `load_chat` (chat_app.py:27-32): a missing file yields the
default `{"title": chat_id, "messages": []}`; otherwise the file's JSON. -/
def load_chat (fs : KFs) (chat_id : PyStr) : KChat :=
  match flookup fs (jsonName chat_id) with
  | none => { title := chat_id, messages := [] }
  | some p => p.1

/-- Model of `save_chat` (chat_app.py:34-37): write the chat file, stamping
the directory entry's modification time. -/
def save_chat (fs : KFs) (chat_id : PyStr) (chat_data : KChat) (mtime : Nat) : KFs :=
  fwrite fs (jsonName chat_id) (chat_data, mtime)

/-- Model of `delete_chat` (chat_app.py:39-42): remove the file if present. -/
def delete_chat (fs : KFs) (chat_id : PyStr) : KFs :=
  ferase fs (jsonName chat_id)

/-- Model of the New-Chat button handler (chat_app.py:115-118): the new
identifier is the second-resolution timestamp. -/
def new_chat_click (fs : KFs) (now : DT) (mtime : Nat) : KFs :=
  let new_id := fmtKarthic now
  save_chat fs new_id { title := str "Chat " ++ new_id, messages := [] } mtime

end Karthic

namespace Chandru

/-! Model of `save_chat` in
`src/Chandru_Gandhi_Mohanraj/02_ChatgptApp_OpenRouter/newChatAppWithExpanderSummary.py`
(lines 85-110).  The summary text comes from a network call
(`summarize_chat`), passed in here as a parameter, as is the iso-format
timestamp string. -/

/-- The JSON record written for one chat. -/
structure CData where
  chat_id : PyStr
  title : PyStr
  timestamp : PyStr
  messages : List Msg
  summary : PyStr
deriving DecidableEq

/-- Filename of a chat, `f"{CHAT_DIR}/{chat_id}.json"` (directory elided). -/
def jsonName (chat_id : PyStr) : PyStr := chat_id ++ str ".json"

/-- Model of `save_chat`: with no messages nothing is saved and `None` is
returned; otherwise the identifier defaults to the formatted current time,
the title to the first user message truncated to 60 characters, and the
record is written.  Returns the identifier and the updated directory. -/
def save_chat (fs : List (PyStr × CData)) (messages : List Msg) (chat_id : Option PyStr)
    (now : DT) (nowIso : PyStr) (summary : PyStr) : Option PyStr × List (PyStr × CData) :=
  if messages = [] then (none, fs)
  else
    let cid := chat_id.getD (fmtChandru now)
    let title := ((messages.find? (fun m => m.role = str "user")).map
      (fun m => m.content.take 60)).getD (str "New Chat")
    let data : CData :=
      { chat_id := cid, title := title, timestamp := nowIso, messages := messages,
        summary := summary }
    (some cid, fwrite fs (jsonName cid) data)

end Chandru

namespace Soujanya

/-! Model of `src/Soujanya_J/Day3/Chatgpt_app/app.py`: the `Chat` dataclass,
`serialize_state`/`hydrate_state`, the recency-sorted history listing, and
the chat-input handler's append steps.  `time.time()` floats are modelled
as rationals (`float(x)` on an already-float value is the identity). -/

/-- The `Chat` dataclass (app.py:79-86). -/
structure Chat where
  chat_id : PyStr
  title : PyStr
  messages : List Msg
  summary : Option PyStr
  created_at : ℚ
  updated_at : ℚ
deriving DecidableEq

/-- Model of `new_chat` (app.py:93-96); the uuid4 draw and clock reading
are passed in. -/
def new_chat (cid : PyStr) (title : PyStr) (t : ℚ) : Chat :=
  { chat_id := cid, title := title, messages := [], summary := none,
    created_at := t, updated_at := t }

/-- One chat's record inside the serialized state; every field is optional
because `hydrate_state` reads each with `.get` and a default. -/
structure RawChat where
  chat_id : Option PyStr
  title : Option PyStr
  messages : Option (List Msg)
  summary : Option PyStr
  created_at : Option ℚ
  updated_at : Option ℚ
deriving DecidableEq

/-- The serialized top-level state record. -/
structure RawState where
  active_chat_id : Option PyStr
  chats : Option (List (PyStr × RawChat))
  version : Nat
deriving DecidableEq

/-- Model of `serialize_state` (app.py:99-114): every field of every chat is
written out, keyed by the chats-dict key. -/
def serialize_state (chats : List (PyStr × Chat)) (active : Option PyStr) : RawState :=
  { active_chat_id := active,
    chats := some (chats.map (fun p =>
      (p.1,
        { chat_id := some p.2.chat_id, title := some p.2.title,
          messages := some p.2.messages, summary := p.2.summary,
          created_at := some p.2.created_at, updated_at := some p.2.updated_at }))),
    version := 1 }

/-- Per-chat part of `hydrate_state` (app.py:121-129): read each field back
with its default; `c.get("messages", []) or []` collapses a missing or null
list to `[]`. -/
def hydrate_chat (cid : PyStr) (c : RawChat) (now : ℚ) : Chat :=
  { chat_id := c.chat_id.getD cid,
    title := c.title.getD (str "Chat"),
    messages := c.messages.getD [],
    summary := c.summary,
    created_at := c.created_at.getD now,
    updated_at := c.updated_at.getD now }

/-- Model of `hydrate_state` (app.py:117-132): rebuild the chats dict, then
repair `active` to some existing key (or the first key) when it is not a
key of the rebuilt dict. -/
def hydrate_state (raw : RawState) (now : ℚ) : List (PyStr × Chat) × Option PyStr :=
  let chats := (raw.chats.getD []).map (fun p => (p.1, hydrate_chat p.1 p.2 now))
  let active :=
    match raw.active_chat_id with
    | some a => if (flookup chats a).isSome then some a else (chats.map Prod.fst).head?
    | none => (chats.map Prod.fst).head?
  (chats, active)

/-- The comparison used by `sorted(..., key=lambda x: x.updated_at,
reverse=True)`; keeping the left element on ties makes the sort stable, as
Python's is. -/
def descLe (a b : Chat) : Bool := decide (b.updated_at ≤ a.updated_at)

/-- Model of the history listing `chat_items` (app.py:396-400): all chats,
newest `updated_at` first. -/
def chat_items (chats : List (PyStr × Chat)) : List Chat :=
  (chats.map Prod.snd).mergeSort descLe

/-- Model of the user-message part of the chat-input handler
(app.py:478-488): append the user message, stamp `updated_at`, auto-title
when this is the first message of a still-placeholder chat, persist.  The
summary is not touched here. -/
def append_user_message (chat : Chat) (text : PyStr) (now : ℚ) : Chat :=
  let msgs := chat.messages ++ [Msg.mk (str "user") text]
  let title :=
    if chat.title = str "New Chat" ∧ msgs.length = 1 then
      text.take 28 ++ (if 28 < text.length then str "..." else [])
    else chat.title
  { chat with messages := msgs, updated_at := now, title := title }

/-- Model of the assistant-message part of the chat-input handler
(app.py:509-516): append the streamed reply, stamp `updated_at`, and clear
the cached summary before persisting. -/
def append_assistant_message (chat : Chat) (acc : PyStr) (now : ℚ) : Chat :=
  { chat with
    messages := chat.messages ++ [Msg.mk (str "assistant") acc],
    updated_at := now, summary := none }

end Soujanya

namespace Afsal

/-! Model of `src/Afsal_Bavummal/chatgpt_task_day3.py`: chat files are named
`{chat_id}_{formatted_start_time}.json` and looked up by filename prefix, so
the chats directory is keyed by full filename. -/

/-- One chat record as created by `create_new_chat` (lines 116-127). -/
structure AChat where
  id : PyStr
  title : PyStr
  start_time : PyStr
  messages : List Msg
  summary : PyStr
deriving DecidableEq

/-- Model of `generate_chat_filename` (lines 74-76): the start time with
`:` replaced by `-` and spaces by `_`. -/
def generate_chat_filename (chat_id : PyStr) (start_time : PyStr) : PyStr :=
  chat_id ++ '_' :: (start_time.map (fun c => if c = ':' then '-' else if c = ' ' then '_' else c))
    ++ str ".json"

/-- Model of `get_chat_filepath` (lines 78-83): first filename in directory
order that starts with the chat id and ends in `.json`. -/
def get_chat_filepath (fs : List (PyStr × AChat)) (chat_id : PyStr) : Option PyStr :=
  (fs.map Prod.fst).find? (fun f => chat_id.isPrefixOf f && (str ".json").isSuffixOf f)

/-- Model of `save_chat_to_disk` (lines 99-109): remove the chat's previous
file if any, then write the record under its freshly generated filename. -/
def save_chat_to_disk (fs : List (PyStr × AChat)) (chat_data : AChat) : List (PyStr × AChat) :=
  let fs1 :=
    match get_chat_filepath fs chat_data.id with
    | some old => ferase fs old
    | none => fs
  fwrite fs1 (generate_chat_filename chat_data.id chat_data.start_time) chat_data

/-- Model of `clear_chat` (lines 140-145): when the id is a known session
chat, empty its messages, blank its summary, reset its title to the
placeholder, and persist; otherwise do nothing.  Returns the updated
session chats dict and directory. -/
def clear_chat (chats : List (PyStr × AChat)) (fs : List (PyStr × AChat)) (chat_id : PyStr) :
    List (PyStr × AChat) × List (PyStr × AChat) :=
  match flookup chats chat_id with
  | none => (chats, fs)
  | some c =>
    let c2 : AChat := { c with messages := [], summary := [], title := str "New Chat" }
    (fupdate chats chat_id c2, save_chat_to_disk fs c2)

end Afsal

namespace Mohan

/-! Model of the chat-file persistence of
`src/Mohan_Kumar_K/Day3_streamlit_chat_app.py` (lines 133-165). -/

/-- Filename of a chat, `CHAT_HISTORY_DIR / f"{chat_id}.json"` (directory
elided). -/
def jsonName (chat_id : PyStr) : PyStr := chat_id ++ str ".json"

/-- Model of `save_chat_to_file` (lines 133-147): on success the file is
written and the filename returned; a raised I/O error is logged and
re-raised, modelled by `Except.error`.  `writeFails` stands for the
environment condition (permissions, disk) that makes the write raise. -/
def save_chat_to_file {α : Type} (fs : List (PyStr × FileData α)) (chat_id : PyStr)
    (chat_data : α) (writeFails : Bool) : Except Unit (List (PyStr × FileData α) × PyStr) :=
  if writeFails then Except.error ()
  else Except.ok (fwrite fs (jsonName chat_id) (FileData.ok chat_data), jsonName chat_id)

/-- Model of `load_chat_from_file` (lines 149-164): a missing file yields
`None` (with a warning log), and a raised open/parse error is caught and
also yields `None`. -/
def load_chat_from_file {α : Type} (fs : List (PyStr × FileData α)) (chat_id : PyStr) :
    Option α :=
  match flookup fs (jsonName chat_id) with
  | none => none
  | some (FileData.ok v) => some v
  | some FileData.malformed => none

end Mohan

/-! Helper lemmas about the dict and filesystem model. -/

theorem flookup_fupdate_self {α : Type} (l : List (PyStr × α)) (k : PyStr) (v : α)
    (h : (flookup l k).isSome) : flookup (fupdate l k v) k = some v := by
  induction l with
  | nil => simp [flookup] at h
  | cons p l ih =>
    by_cases hp : p.1 = k
    · simp [fupdate, flookup, hp]
    · simp only [flookup, hp, if_false] at h
      have ih2 := ih h
      simp only [fupdate] at ih2 ⊢
      simp [flookup, hp, ih2]

theorem flookup_ferase_self {α : Type} (l : List (PyStr × α)) (k : PyStr) :
    flookup (ferase l k) k = none := by
  induction l with
  | nil => rfl
  | cons p l ih =>
    by_cases hp : p.1 = k
    · simpa [ferase, List.filter, hp] using ih
    · simpa [ferase, List.filter, hp, flookup] using ih

theorem ferase_ferase {α : Type} (l : List (PyStr × α)) (k : PyStr) :
    ferase (ferase l k) k = ferase l k := by
  simp [ferase, List.filter_filter]

theorem flookup_append_right {α : Type} (l : List (PyStr × α)) (k : PyStr) (v : α)
    (h : flookup l k = none) : flookup (l ++ [(k, v)]) k = some v := by
  induction l with
  | nil => simp [flookup]
  | cons p l ih =>
    by_cases hp : p.1 = k
    · simp [flookup, hp] at h
    · simp only [flookup, hp, if_false] at h
      simp [flookup, hp, ih h]

theorem flookup_fwrite_self {α : Type} (l : List (PyStr × α)) (k : PyStr) (v : α) :
    flookup (fwrite l k v) k = some v := by
  unfold fwrite
  by_cases h : (flookup l k).isSome
  · simp [h, flookup_fupdate_self l k v h]
  · have hn : flookup l k = none := by
      cases hx : flookup l k
      · rfl
      · rw [hx] at h
        simp at h
    simp [h, flookup_append_right l k v hn]

/-! Helper lemmas about the strftime digit renderings. -/

theorem digitChar_inj : ∀ a < 10, ∀ b < 10, digitChar a = digitChar b → a = b := by decide

theorem pad2_inj (a b : Nat) (ha : a < 100) (hb : b < 100) (h : pad2 a = pad2 b) : a = b := by
  simp only [pad2, List.cons.injEq, and_true] at h
  obtain ⟨h1, h2⟩ := h
  have e1 := digitChar_inj (a / 10) (by omega) (b / 10) (by omega) h1
  have e2 := digitChar_inj (a % 10) (by omega) (b % 10) (by omega) h2
  omega

theorem pad4_inj (a b : Nat) (ha : a < 10000) (hb : b < 10000) (h : pad4 a = pad4 b) : a = b := by
  simp only [pad4, List.cons.injEq, and_true] at h
  obtain ⟨h1, h2, h3, h4⟩ := h
  have e1 := digitChar_inj (a / 1000) (by omega) (b / 1000) (by omega) h1
  have e2 := digitChar_inj (a / 100 % 10) (by omega) (b / 100 % 10) (by omega) h2
  have e3 := digitChar_inj (a / 10 % 10) (by omega) (b / 10 % 10) (by omega) h3
  have e4 := digitChar_inj (a % 10) (by omega) (b % 10) (by omega) h4
  omega

theorem pad2_length (n : Nat) : (pad2 n).length = 2 := rfl

theorem pad4_length (n : Nat) : (pad4 n).length = 4 := rfl

theorem fmtChandru_inj (d1 d2 : DT) (hv1 : d1.valid) (hv2 : d2.valid)
    (h : fmtChandru d1 = fmtChandru d2) : d1 = d2 := by
  obtain ⟨y1, mo1, da1, ho1, mi1, s1⟩ := d1
  obtain ⟨y2, mo2, da2, ho2, mi2, s2⟩ := d2
  simp only [DT.valid] at hv1 hv2
  obtain ⟨hy1, hmo1, hda1, hho1, hmi1, hs1⟩ := hv1
  obtain ⟨hy2, hmo2, hda2, hho2, hmi2, hs2⟩ := hv2
  simp only [fmtChandru, pad4, pad2, List.cons_append, List.nil_append,
    List.cons.injEq, and_true, true_and, eq_self_iff_true] at h
  obtain ⟨e1, e2, e3, e4, e5, e6, e7, e8, e9, e10, e11, e12, e13, e14⟩ := h
  simp only [DT.mk.injEq]
  have a1 := digitChar_inj _ (by omega) _ (by omega) e1
  have a2 := digitChar_inj _ (by omega) _ (by omega) e2
  have a3 := digitChar_inj _ (by omega) _ (by omega) e3
  have a4 := digitChar_inj _ (by omega) _ (by omega) e4
  have a5 := digitChar_inj _ (by omega) _ (by omega) e5
  have a6 := digitChar_inj _ (by omega) _ (by omega) e6
  have a7 := digitChar_inj _ (by omega) _ (by omega) e7
  have a8 := digitChar_inj _ (by omega) _ (by omega) e8
  have a9 := digitChar_inj _ (by omega) _ (by omega) e9
  have a10 := digitChar_inj _ (by omega) _ (by omega) e10
  have a11 := digitChar_inj _ (by omega) _ (by omega) e11
  have a12 := digitChar_inj _ (by omega) _ (by omega) e12
  have a13 := digitChar_inj _ (by omega) _ (by omega) e13
  have a14 := digitChar_inj _ (by omega) _ (by omega) e14
  omega

theorem fmtKarthic_inj (d1 d2 : DT) (hv1 : d1.valid) (hv2 : d2.valid)
    (h : fmtKarthic d1 = fmtKarthic d2) : d1 = d2 := by
  obtain ⟨y1, mo1, da1, ho1, mi1, s1⟩ := d1
  obtain ⟨y2, mo2, da2, ho2, mi2, s2⟩ := d2
  simp only [DT.valid] at hv1 hv2
  obtain ⟨hy1, hmo1, hda1, hho1, hmi1, hs1⟩ := hv1
  obtain ⟨hy2, hmo2, hda2, hho2, hmi2, hs2⟩ := hv2
  simp only [fmtKarthic, pad4, pad2, List.cons_append, List.nil_append,
    List.cons.injEq, and_true, true_and, eq_self_iff_true] at h
  obtain ⟨e1, e2, e3, e4, e5, e6, e7, e8, e9, e10, e11, e12, e13, e14⟩ := h
  simp only [DT.mk.injEq]
  have a1 := digitChar_inj _ (by omega) _ (by omega) e1
  have a2 := digitChar_inj _ (by omega) _ (by omega) e2
  have a3 := digitChar_inj _ (by omega) _ (by omega) e3
  have a4 := digitChar_inj _ (by omega) _ (by omega) e4
  have a5 := digitChar_inj _ (by omega) _ (by omega) e5
  have a6 := digitChar_inj _ (by omega) _ (by omega) e6
  have a7 := digitChar_inj _ (by omega) _ (by omega) e7
  have a8 := digitChar_inj _ (by omega) _ (by omega) e8
  have a9 := digitChar_inj _ (by omega) _ (by omega) e9
  have a10 := digitChar_inj _ (by omega) _ (by omega) e10
  have a11 := digitChar_inj _ (by omega) _ (by omega) e11
  have a12 := digitChar_inj _ (by omega) _ (by omega) e12
  have a13 := digitChar_inj _ (by omega) _ (by omega) e13
  have a14 := digitChar_inj _ (by omega) _ (by omega) e14
  omega

/-! Helper lemmas about the Python split/join model. -/

theorem pySplitAux_word (w : List Char) (hw : ∀ c ∈ w, isWs c = false) :
    ∀ (rest acc : List Char), pySplitAux (w ++ rest) acc = pySplitAux rest (w.reverse ++ acc) := by
  induction w with
  | nil => intro rest acc; simp
  | cons c cs ih =>
    intro rest acc
    have hc : isWs c = false := hw c (by simp)
    have hcs : ∀ x ∈ cs, isWs x = false := fun x hx => hw x (by simp [hx])
    simp only [List.cons_append, pySplitAux, hc, Bool.false_eq_true, if_false]
    show pySplitAux (cs ++ rest) (c :: acc) = pySplitAux rest ((c :: cs).reverse ++ acc)
    rw [ih hcs rest (c :: acc)]
    simp

theorem pyWords_joinSpace : ∀ (ws : List PyStr),
    (∀ w ∈ ws, w ≠ [] ∧ ∀ c ∈ w, isWs c = false) → pyWords (joinSpace ws) = ws := by
  intro ws
  induction ws with
  | nil => intro _; rfl
  | cons w ws ih =>
    intro h
    obtain ⟨hw, hcs⟩ := h w (by simp)
    have hwr : w.reverse ≠ [] := by simpa using hw
    cases ws with
    | nil =>
      have h1 := pySplitAux_word w hcs [] []
      simp only [List.append_nil] at h1
      unfold pyWords
      simp only [joinSpace, h1, pySplitAux, hwr, if_false, List.reverse_reverse]
    | cons v vs =>
      have hrest : ∀ x ∈ v :: vs, x ≠ [] ∧ ∀ c ∈ x, isWs c = false :=
        fun x hx => h x (by simp [hx])
      have ihr := ih hrest
      unfold pyWords at ihr ⊢
      have hj : joinSpace (w :: v :: vs) = w ++ ' ' :: joinSpace (v :: vs) := rfl
      rw [hj, pySplitAux_word w hcs (' ' :: joinSpace (v :: vs)) []]
      simp only [List.append_nil, pySplitAux, isWs, hwr]
      simp only [List.reverse_reverse, ihr]
      simp

/-! Claim theorems. -/

/-- C10: add_message with an explicit ts sets the thread's updated_at field
to exactly ts, the timestamp of the appended message, and appends the
message carrying that same ts; no relation with the previous updated_at is
imposed, so a caller-supplied stale timestamp moves the thread backwards. -/
theorem claim_C10 (chats : Jerry.JChats) (tid role content : PyStr) (now v : Int)
    (t : Jerry.JThread) (h : flookup chats.threads tid = some t) :
    ∃ chats2, Jerry.add_message chats tid role content now (some v) = some chats2 ∧
      ∃ t2, flookup chats2.threads tid = some t2 ∧
        t2.updated_at = v ∧
        t2.messages = t.messages ++ [⟨role, content, v⟩] ∧
        t2.id = t.id ∧ t2.title = t.title ∧ t2.created_at = t.created_at := by
  refine ⟨({ chats with
      threads := fupdate chats.threads tid
        { t with messages := t.messages ++ [⟨role, content, v⟩], updated_at := v } }), ?_, ?_⟩
  · simp [Jerry.add_message, h]
  · exact ⟨_, flookup_fupdate_self _ _ _ (by simp [h]), rfl, rfl, rfl, rfl, rfl⟩

/-- C10 witness: on a thread whose updated_at is 100, appending with
explicit ts = 3 leaves updated_at = 3 even though 3 < 100. -/
theorem claim_C10_witness :
    (∃ chats2,
      Jerry.add_message ⟨[(str "t1", ⟨str "t1", str "New Chat", 50, 100, []⟩)], [str "t1"]⟩
        (str "t1") (str "user") (str "hi") 200 (some 3) = some chats2 ∧
      ∃ t2, flookup chats2.threads (str "t1") = some t2 ∧
        t2.updated_at = 3 ∧
        t2.messages = ([] : List Jerry.JMsg) ++ [⟨str "user", str "hi", 3⟩] ∧
        t2.id = str "t1" ∧ t2.title = str "New Chat" ∧ t2.created_at = 50) ∧
    (3 : Int) < 100 :=
  ⟨claim_C10 ⟨[(str "t1", ⟨str "t1", str "New Chat", 50, 100, []⟩)], [str "t1"]⟩
    (str "t1") (str "user") (str "hi") 200 3 ⟨str "t1", str "New Chat", 50, 100, []⟩
    (by decide), by decide⟩

/-- C1 counterexample: appending a user message in Soujanya's handler keeps
a previously set summary (it is not cleared, contradicting stale-on-write on
every append), and JERRY's add_message with an explicit stale ts = 3 moves
updated_at from 5 down to 3, so updated_at has not advanced. -/
theorem claim_C1_cex :
    (Soujanya.append_user_message
        ⟨str "c1", str "T", [Msg.mk (str "user") (str "q")], some (str "cached"), 0, 5⟩
        (str "hello") 9).summary = some (str "cached") ∧
    (Jerry.add_message ⟨[(str "t1", ⟨str "t1", str "T", 0, 5, []⟩)], [str "t1"]⟩
        (str "t1") (str "user") (str "hi") 7 (some 3) =
      some ⟨[(str "t1", ⟨str "t1", str "T", 0, 3, [⟨str "user", str "hi", 3⟩]⟩)], [str "t1"]⟩) ∧
    (3 : Int) < 5 := by
  refine ⟨by decide, by decide, by decide⟩

/-- C1 (amended): after an append the thread's messages list is one element
longer and its last element has exactly the given role and content;
updated_at is set to the appended message's timestamp (clock reading or
caller-supplied ts), not necessarily advanced; the append itself leaves the
summary unchanged — in Soujanya's handler only the assistant-reply append
clears the cached summary. -/
theorem claim_C1 (chats : Jerry.JChats) (tid role content : PyStr) (now : Int)
    (tsOpt : Option Int) (t : Jerry.JThread) (h : flookup chats.threads tid = some t)
    (chat : Soujanya.Chat) (text acc : PyStr) (snow : ℚ) :
    (∃ chats2, Jerry.add_message chats tid role content now tsOpt = some chats2 ∧
      ∃ t2, flookup chats2.threads tid = some t2 ∧
        t2.messages = t.messages ++ [⟨role, content, tsOpt.getD now⟩] ∧
        t2.updated_at = tsOpt.getD now) ∧
    ((Soujanya.append_user_message chat text snow).messages =
        chat.messages ++ [Msg.mk (str "user") text] ∧
      (Soujanya.append_user_message chat text snow).updated_at = snow ∧
      (Soujanya.append_user_message chat text snow).summary = chat.summary) ∧
    ((Soujanya.append_assistant_message chat acc snow).messages =
        chat.messages ++ [Msg.mk (str "assistant") acc] ∧
      (Soujanya.append_assistant_message chat acc snow).updated_at = snow ∧
      (Soujanya.append_assistant_message chat acc snow).summary = none) := by
  refine ⟨⟨({ chats with
      threads := fupdate chats.threads tid
        { t with
          messages := t.messages ++ [⟨role, content, tsOpt.getD now⟩],
          updated_at := tsOpt.getD now } }), ?_, ?_⟩, ?_, ?_⟩
  · simp [Jerry.add_message, h]
  · exact ⟨_, flookup_fupdate_self _ _ _ (by simp [h]), rfl, rfl⟩
  · exact ⟨rfl, rfl, rfl⟩
  · exact ⟨rfl, rfl, rfl⟩

/-- C1 witness: the amended append behaviour at a concrete store with one
thread and a concrete Soujanya chat carrying a cached summary. -/
theorem claim_C1_witness :
    (∃ chats2,
      Jerry.add_message ⟨[(str "t1", ⟨str "t1", str "T", 0, 5, []⟩)], [str "t1"]⟩
        (str "t1") (str "user") (str "hi") 7 (some 3) = some chats2 ∧
      ∃ t2, flookup chats2.threads (str "t1") = some t2 ∧
        t2.messages = ([] : List Jerry.JMsg) ++ [⟨str "user", str "hi", (some 3).getD 7⟩] ∧
        t2.updated_at = (some 3).getD 7) ∧
    ((Soujanya.append_user_message ⟨str "c1", str "T", [], some (str "cached"), 0, 5⟩
        (str "hello") 9).messages = [] ++ [Msg.mk (str "user") (str "hello")] ∧
      (Soujanya.append_user_message ⟨str "c1", str "T", [], some (str "cached"), 0, 5⟩
        (str "hello") 9).updated_at = 9 ∧
      (Soujanya.append_user_message ⟨str "c1", str "T", [], some (str "cached"), 0, 5⟩
        (str "hello") 9).summary = some (str "cached")) ∧
    ((Soujanya.append_assistant_message ⟨str "c1", str "T", [], some (str "cached"), 0, 5⟩
        (str "ok") 9).messages = [] ++ [Msg.mk (str "assistant") (str "ok")] ∧
      (Soujanya.append_assistant_message ⟨str "c1", str "T", [], some (str "cached"), 0, 5⟩
        (str "ok") 9).updated_at = 9 ∧
      (Soujanya.append_assistant_message ⟨str "c1", str "T", [], some (str "cached"), 0, 5⟩
        (str "ok") 9).summary = none) :=
  claim_C1 ⟨[(str "t1", ⟨str "t1", str "T", 0, 5, []⟩)], [str "t1"]⟩
    (str "t1") (str "user") (str "hi") 7 (some 3) ⟨str "t1", str "T", 0, 5, []⟩ (by decide)
    ⟨str "c1", str "T", [], some (str "cached"), 0, 5⟩ (str "hello") (str "ok") 9

/-- C3 counterexample: after deleting chat "c", Karthic's load_chat does not
fail with NotFound — it returns the default chat with the identifier as its
title and an empty message list. -/
theorem claim_C3_cex :
    Karthic.load_chat
        (Karthic.delete_chat (Karthic.save_chat [] (str "c") ⟨str "Chat c", []⟩ 1) (str "c"))
        (str "c") =
      ⟨str "c", []⟩ := by decide

/-- C3 (amended): delete removes the thread — JERRY's delete_thread removes
it from the in-memory threads map and the order list (the caller persists
via save_chats), Karthic's delete_chat removes the persisted file — and a
second delete of the same identifier is a no-op; but a load performed after
the delete does not fail with NotFound: Karthic's load_chat returns the
default chat with the identifier as title and no messages. -/
theorem claim_C3 (fs : Karthic.KFs) (cid : PyStr) (chats : Jerry.JChats) (tid : PyStr) :
    (flookup (Karthic.delete_chat fs cid) (Karthic.jsonName cid) = none ∧
      Karthic.delete_chat (Karthic.delete_chat fs cid) cid = Karthic.delete_chat fs cid ∧
      Karthic.load_chat (Karthic.delete_chat fs cid) cid = ⟨cid, []⟩) ∧
    (flookup (Jerry.delete_thread chats tid).threads tid = none ∧
      tid ∉ (Jerry.delete_thread chats tid).order ∧
      Jerry.delete_thread (Jerry.delete_thread chats tid) tid = Jerry.delete_thread chats tid) := by
  refine ⟨⟨flookup_ferase_self _ _, ferase_ferase _ _, ?_⟩, ?_, ?_, ?_⟩
  · unfold Karthic.load_chat Karthic.delete_chat
    rw [flookup_ferase_self]
  · exact flookup_ferase_self _ _
  · simp [Jerry.delete_thread]
  · unfold Jerry.delete_thread
    simp [ferase_ferase, List.filter_filter]

/-- C5 counterexample: loading a never-created identifier does not fail with
NotFound: Karthic's load_chat returns a default chat, and Mohan's
load_chat_from_file returns None rather than raising. -/
theorem claim_C5_cex :
    Karthic.load_chat [] (str "missing") = ⟨str "missing", []⟩ ∧
    Mohan.load_chat_from_file ([] : List (PyStr × FileData Nat)) (str "missing") = none := by
  refine ⟨by decide, by decide⟩

/-- C5 (amended): loading a present thread returns the full stored thread;
for an absent identifier Karthic's load_chat returns the default chat with
the identifier as title and empty messages and Mohan's load_chat_from_file
returns None — neither fails with a NotFound error. -/
theorem claim_C5 :
    (∀ (fs : Karthic.KFs) (cid : PyStr) (c : Karthic.KChat) (mt : Nat),
      flookup fs (Karthic.jsonName cid) = some (c, mt) → Karthic.load_chat fs cid = c) ∧
    (∀ (fs : Karthic.KFs) (cid : PyStr),
      flookup fs (Karthic.jsonName cid) = none →
        Karthic.load_chat fs cid = ⟨cid, []⟩) ∧
    (∀ (α : Type) (fs : List (PyStr × FileData α)) (cid : PyStr) (v : α),
      flookup fs (Mohan.jsonName cid) = some (FileData.ok v) →
        Mohan.load_chat_from_file fs cid = some v) ∧
    (∀ (α : Type) (fs : List (PyStr × FileData α)) (cid : PyStr),
      flookup fs (Mohan.jsonName cid) = none → Mohan.load_chat_from_file fs cid = none) := by
  refine ⟨?_, ?_, ?_, ?_⟩
  · intro fs cid c mt h
    unfold Karthic.load_chat
    rw [h]
  · intro fs cid h
    unfold Karthic.load_chat
    rw [h]
  · intro α fs cid v h
    unfold Mohan.load_chat_from_file
    rw [h]
  · intro α fs cid h
    unfold Mohan.load_chat_from_file
    rw [h]

/-- C5 witness: a present thread loads in full and an absent one yields the
default/None results, at a concrete one-file directory. -/
theorem claim_C5_witness :
    Karthic.load_chat [(Karthic.jsonName (str "a"), (⟨str "T", []⟩, 1))] (str "a") =
      ⟨str "T", []⟩ ∧
    Karthic.load_chat [(Karthic.jsonName (str "a"), (⟨str "T", []⟩, 1))] (str "b") =
      ⟨str "b", []⟩ ∧
    Mohan.load_chat_from_file [(Mohan.jsonName (str "a"), FileData.ok (5 : Nat))] (str "a") =
      some 5 ∧
    Mohan.load_chat_from_file [(Mohan.jsonName (str "a"), FileData.ok (5 : Nat))] (str "b") =
      none :=
  ⟨claim_C5.1 _ (str "a") ⟨str "T", []⟩ 1 (by decide),
   claim_C5.2.1 _ (str "b") (by decide),
   claim_C5.2.2.1 Nat _ (str "a") 5 (by decide),
   claim_C5.2.2.2 Nat _ (str "b") (by decide)⟩

/-- C7 counterexample: a malformed persisted file is silently replaced by
the caller's default in JERRY's _read_json, and Mohan's load_chat_from_file
maps a failed read to None — no distinct storage-error kind reaches the
caller. -/
theorem claim_C7_cex :
    Jerry.read_json [(str "chats.json", (FileData.malformed : FileData Nat))]
        (str "chats.json") 0 = 0 ∧
    Mohan.load_chat_from_file [(Mohan.jsonName (str "a"), (FileData.malformed : FileData Nat))]
        (str "a") = none := by
  refine ⟨by decide, by decide⟩

/-- C7 (amended): read failures are swallowed, not surfaced: _read_json
returns the caller's default when the file is missing or when opening or
parsing raises, and load_chat_from_file returns None in the same cases; of
the modelled operations only Mohan's save_chat_to_file re-raises its I/O
error, while a successful save persists the record under the chat's
filename. -/
theorem claim_C7 :
    (∀ (α : Type) (fs : List (PyStr × FileData α)) (path : PyStr) (dflt : α),
      flookup fs path = some FileData.malformed → Jerry.read_json fs path dflt = dflt) ∧
    (∀ (α : Type) (fs : List (PyStr × FileData α)) (path : PyStr) (dflt : α),
      flookup fs path = none → Jerry.read_json fs path dflt = dflt) ∧
    (∀ (α : Type) (fs : List (PyStr × FileData α)) (cid : PyStr),
      flookup fs (Mohan.jsonName cid) = some FileData.malformed →
        Mohan.load_chat_from_file fs cid = none) ∧
    (∀ (α : Type) (fs : List (PyStr × FileData α)) (cid : PyStr) (data : α),
      Mohan.save_chat_to_file fs cid data true = Except.error ()) ∧
    (∀ (α : Type) (fs : List (PyStr × FileData α)) (cid : PyStr) (data : α),
      ∃ fs2, Mohan.save_chat_to_file fs cid data false =
          Except.ok (fs2, Mohan.jsonName cid) ∧
        flookup fs2 (Mohan.jsonName cid) = some (FileData.ok data)) := by
  refine ⟨?_, ?_, ?_, ?_, ?_⟩
  · intro α fs path dflt h
    unfold Jerry.read_json
    rw [h]
  · intro α fs path dflt h
    unfold Jerry.read_json
    rw [h]
  · intro α fs cid h
    unfold Mohan.load_chat_from_file
    rw [h]
  · intro α fs cid data
    rfl
  · intro α fs cid data
    exact ⟨_, rfl, flookup_fwrite_self _ _ _⟩

/-- C7 witness: the swallowed-failure behaviour at concrete one-file
directories, plus a concrete failing and succeeding save. -/
theorem claim_C7_witness :
    Jerry.read_json [(str "settings.json", (FileData.malformed : FileData Nat))]
        (str "settings.json") 7 = 7 ∧
    Jerry.read_json ([] : List (PyStr × FileData Nat)) (str "settings.json") 7 = 7 ∧
    Mohan.load_chat_from_file [(Mohan.jsonName (str "c"), (FileData.malformed : FileData Nat))]
        (str "c") = none ∧
    Mohan.save_chat_to_file ([] : List (PyStr × FileData Nat)) (str "c") 5 true =
      Except.error () ∧
    ∃ fs2, Mohan.save_chat_to_file ([] : List (PyStr × FileData Nat)) (str "c") 5 false =
        Except.ok (fs2, Mohan.jsonName (str "c")) ∧
      flookup fs2 (Mohan.jsonName (str "c")) = some (FileData.ok 5) :=
  ⟨claim_C7.1 Nat _ (str "settings.json") 7 (by decide),
   claim_C7.2.1 Nat _ (str "settings.json") 7 (by decide),
   claim_C7.2.2.1 Nat _ (str "c") (by decide),
   claim_C7.2.2.2.1 Nat [] (str "c") 5,
   claim_C7.2.2.2.2 Nat [] (str "c") 5⟩

/-- C6 counterexample: JERRY's Clear-Messages handler empties the messages
but leaves the title untouched — after clearing a thread titled "Capitals"
the title is still "Capitals", not the placeholder (and JERRY threads carry
no summary field at all). -/
theorem claim_C6_cex :
    Jerry.clear_messages_click
        ⟨[(str "t1", ⟨str "t1", str "Capitals", 0, 5, [⟨str "user", str "q", 1⟩]⟩)], [str "t1"]⟩
        (str "t1") 9 =
      some ⟨[(str "t1", ⟨str "t1", str "Capitals", 0, 9, []⟩)], [str "t1"]⟩ ∧
    str "Capitals" ≠ str "New Chat" := by
  refine ⟨by decide, by decide⟩

/-- C6 (amended): after Afsal's clear_chat the chat's messages are empty,
its summary is the empty string, its title is the placeholder, and the
cleared record is persisted under its generated filename; JERRY's
Clear-Messages handler instead only empties messages and stamps updated_at,
leaving the title unchanged. -/
theorem claim_C6 :
    (∀ (chats fs : List (PyStr × Afsal.AChat)) (cid : PyStr) (c : Afsal.AChat),
      flookup chats cid = some c →
        ∃ c2 : Afsal.AChat,
          flookup (Afsal.clear_chat chats fs cid).1 cid = some c2 ∧
          c2.messages = [] ∧ c2.summary = [] ∧ c2.title = str "New Chat" ∧
          c2.id = c.id ∧ c2.start_time = c.start_time ∧
          flookup (Afsal.clear_chat chats fs cid).2
            (Afsal.generate_chat_filename c.id c.start_time) = some c2) ∧
    (∀ (chats : Jerry.JChats) (tid : PyStr) (now : Int) (t : Jerry.JThread),
      flookup chats.threads tid = some t →
        ∃ chats2, Jerry.clear_messages_click chats tid now = some chats2 ∧
          ∃ t2, flookup chats2.threads tid = some t2 ∧
            t2.messages = [] ∧ t2.updated_at = now ∧ t2.title = t.title ∧
            t2.id = t.id ∧ t2.created_at = t.created_at) := by
  constructor
  · intro chats fs cid c h
    refine ⟨{ c with messages := [], summary := [], title := str "New Chat" }, ?_, rfl, rfl,
      rfl, rfl, rfl, ?_⟩
    · unfold Afsal.clear_chat
      rw [h]
      exact flookup_fupdate_self _ _ _ (by simp [h])
    · unfold Afsal.clear_chat
      rw [h]
      unfold Afsal.save_chat_to_disk
      exact flookup_fwrite_self _ _ _
  · intro chats tid now t h
    refine ⟨({ chats with
      threads := fupdate chats.threads tid { t with messages := [], updated_at := now } }),
      ?_, ?_⟩
    · unfold Jerry.clear_messages_click
      rw [h]
      rfl
    · exact ⟨_, flookup_fupdate_self _ _ _ (by simp [h]), rfl, rfl, rfl, rfl, rfl⟩

/-- C6 witness: clearing a concrete Afsal chat and a concrete JERRY thread. -/
theorem claim_C6_witness :
    (∃ c2 : Afsal.AChat,
      flookup (Afsal.clear_chat
          [(str "ab", ⟨str "ab", str "Trip", str "2024-01-01 10:00:00",
            [Msg.mk (str "user") (str "hi")], str "sum"⟩)]
          [] (str "ab")).1 (str "ab") = some c2 ∧
      c2.messages = [] ∧ c2.summary = [] ∧ c2.title = str "New Chat" ∧
      c2.id = str "ab" ∧ c2.start_time = str "2024-01-01 10:00:00" ∧
      flookup (Afsal.clear_chat
          [(str "ab", ⟨str "ab", str "Trip", str "2024-01-01 10:00:00",
            [Msg.mk (str "user") (str "hi")], str "sum"⟩)]
          [] (str "ab")).2
        (Afsal.generate_chat_filename (str "ab") (str "2024-01-01 10:00:00")) = some c2) ∧
    (∃ chats2, Jerry.clear_messages_click
        ⟨[(str "t1", ⟨str "t1", str "Go", 0, 5, [⟨str "user", str "q", 1⟩]⟩)], [str "t1"]⟩
        (str "t1") 9 = some chats2 ∧
      ∃ t2, flookup chats2.threads (str "t1") = some t2 ∧
        t2.messages = [] ∧ t2.updated_at = 9 ∧ t2.title = str "Go" ∧
        t2.id = str "t1" ∧ t2.created_at = 0) :=
  ⟨claim_C6.1 [(str "ab", ⟨str "ab", str "Trip", str "2024-01-01 10:00:00",
      [Msg.mk (str "user") (str "hi")], str "sum"⟩)] [] (str "ab")
      ⟨str "ab", str "Trip", str "2024-01-01 10:00:00", [Msg.mk (str "user") (str "hi")],
        str "sum"⟩ (by decide),
   claim_C6.2 ⟨[(str "t1", ⟨str "t1", str "Go", 0, 5, [⟨str "user", str "q", 1⟩]⟩)], [str "t1"]⟩
      (str "t1") 9 ⟨str "t1", str "Go", 0, 5, [⟨str "user", str "q", 1⟩]⟩ (by decide)⟩

/-- C2 counterexample: two creates within the same wall-clock second return
the same timestamp-derived identifier (Chandru's save_chat), and a create in
the same second as a delete re-hands out the deleted thread's identifier
(Karthic's New-Chat button id scheme). -/
theorem claim_C2_cex :
    (Chandru.save_chat [] [Msg.mk (str "user") (str "hi")] none ⟨2024, 1, 1, 12, 0, 0⟩
        (str "iso") (str "s")).1 = some (fmtChandru ⟨2024, 1, 1, 12, 0, 0⟩) ∧
    (Chandru.save_chat
        (Chandru.save_chat [] [Msg.mk (str "user") (str "hi")] none ⟨2024, 1, 1, 12, 0, 0⟩
          (str "iso") (str "s")).2
        [Msg.mk (str "user") (str "hi")] none ⟨2024, 1, 1, 12, 0, 0⟩
        (str "iso") (str "s")).1 = some (fmtChandru ⟨2024, 1, 1, 12, 0, 0⟩) ∧
    flookup (Karthic.delete_chat (Karthic.new_chat_click [] ⟨2024, 1, 1, 12, 0, 0⟩ 1)
        (fmtKarthic ⟨2024, 1, 1, 12, 0, 0⟩))
      (Karthic.jsonName (fmtKarthic ⟨2024, 1, 1, 12, 0, 0⟩)) = none ∧
    flookup (Karthic.new_chat_click
        (Karthic.delete_chat (Karthic.new_chat_click [] ⟨2024, 1, 1, 12, 0, 0⟩ 1)
          (fmtKarthic ⟨2024, 1, 1, 12, 0, 0⟩))
        ⟨2024, 1, 1, 12, 0, 0⟩ 2)
      (Karthic.jsonName (fmtKarthic ⟨2024, 1, 1, 12, 0, 0⟩)) =
      some (⟨str "Chat " ++ fmtKarthic ⟨2024, 1, 1, 12, 0, 0⟩, []⟩, 2) := by
  refine ⟨by decide, by decide, by decide, by decide⟩

/-- C2 (amended): the timestamp-derived identifiers are pairwise distinct
provided the creation times are pairwise distinct at second resolution: the
strftime renderings used by Chandru's save_chat and Karthic's New-Chat
button are injective on valid datetimes, so only same-second creates (or a
create in the same second as a delete) can collide or reuse an identifier. -/
theorem claim_C2 (ds : List DT) (hv : ∀ d ∈ ds, d.valid)
    (hne : ds.Pairwise (fun a b => a ≠ b)) :
    (ds.map fmtChandru).Pairwise (fun a b => a ≠ b) ∧
    (ds.map fmtKarthic).Pairwise (fun a b => a ≠ b) := by
  constructor
  · rw [List.pairwise_map]
    refine hne.imp_of_mem ?_
    intro a b ha hb hab
    exact fun he => hab (fmtChandru_inj a b (hv a ha) (hv b hb) he)
  · rw [List.pairwise_map]
    refine hne.imp_of_mem ?_
    intro a b ha hb hab
    exact fun he => hab (fmtKarthic_inj a b (hv a ha) (hv b hb) he)

/-- C2 witness: three creations at pairwise distinct seconds yield pairwise
distinct identifiers under both format schemes. -/
theorem claim_C2_witness :
    (([⟨2024, 1, 1, 0, 0, 0⟩, ⟨2024, 1, 1, 0, 0, 1⟩, ⟨2025, 6, 7, 8, 9, 10⟩] :
        List DT).map fmtChandru).Pairwise (fun a b => a ≠ b) ∧
    (([⟨2024, 1, 1, 0, 0, 0⟩, ⟨2024, 1, 1, 0, 0, 1⟩, ⟨2025, 6, 7, 8, 9, 10⟩] :
        List DT).map fmtKarthic).Pairwise (fun a b => a ≠ b) :=
  claim_C2 [⟨2024, 1, 1, 0, 0, 0⟩, ⟨2024, 1, 1, 0, 0, 1⟩, ⟨2025, 6, 7, 8, 9, 10⟩]
    (by decide) (by decide)

/-- C8 counterexample: on the seven-word message "a b c d e f g" (13
characters, well within the 40-character budget) the code's
auto_title_from_text keeps only the first six words, while the spec's
strip-and-truncate rule keeps the whole message; the two results differ. -/
theorem claim_C8_cex :
    Jerry.auto_title_from_text (str "a b c d e f g") = str "a b c d e f" ∧
    derive_title_spec (str "a b c d e f g") = str "a b c d e f g" ∧
    str "a b c d e f" ≠ str "a b c d e f g" := by
  refine ⟨by decide, by decide, by decide⟩

/-- C8 (amended): auto_title_from_text keeps the first six
whitespace-separated words of the stripped content, joined by single spaces
and truncated to 40 characters; it agrees with the spec's
strip-and-truncate rule exactly on texts whose stripped form is at most six
single-space-separated words, and the handler leaves a non-placeholder
title unchanged. -/
theorem claim_C8 (ws : List PyStr) (text : PyStr) (hne : ws ≠ []) (hlen : ws.length ≤ 6)
    (hword : ∀ w ∈ ws, w ≠ [] ∧ ∀ c ∈ w, isWs c = false)
    (hstrip : pyStrip text = joinSpace ws)
    (t : Jerry.JThread) (u : PyStr) (ht : t.title ≠ str "New Chat") :
    Jerry.auto_title_from_text text = derive_title_spec text ∧
    Jerry.retitle_step t u = t := by
  constructor
  · show (if pyWords (pyStrip text) = [] then str "New Chat"
      else (joinSpace ((pyWords (pyStrip text)).take 6)).take 40) = (pyStrip text).take 40
    rw [hstrip, pyWords_joinSpace ws hword, List.take_of_length_le hlen, if_neg hne]
  · unfold Jerry.retitle_step
    rw [if_neg]
    intro hcon
    exact ht hcon.1

/-- C8 witness: the six-word message "What is the capital of France?" titles
a placeholder thread with the whole message (it fits the budget), and a
thread already titled otherwise is left unchanged. -/
theorem claim_C8_witness :
    Jerry.auto_title_from_text (str "What is the capital of France?") =
      derive_title_spec (str "What is the capital of France?") ∧
    Jerry.retitle_step ⟨str "t1", str "Existing title", 0, 0, []⟩ (str "hello") =
      ⟨str "t1", str "Existing title", 0, 0, []⟩ :=
  claim_C8 [str "What", str "is", str "the", str "capital", str "of", str "France?"]
    (str "What is the capital of France?") (by decide) (by decide) (by decide) (by decide)
    ⟨str "t1", str "Existing title", 0, 0, []⟩ (str "hello") (by decide)

/-- Helper for C9: rebuilding the serialized chats map entry by entry is the
identity on lookups. -/
theorem souj_roundtrip_aux (now : ℚ) (l : List (PyStr × Soujanya.Chat)) (k : PyStr) :
    flookup (l.map (fun p =>
      (p.1, Soujanya.hydrate_chat p.1
        ⟨some p.2.chat_id, some p.2.title, some p.2.messages, p.2.summary,
         some p.2.created_at, some p.2.updated_at⟩ now))) k = flookup l k := by
  induction l with
  | nil => rfl
  | cons p l ih =>
    by_cases h : p.1 = k
    · simp [flookup, h, Soujanya.hydrate_chat]
    · simp [flookup, h, ih]

/-- C9: round-trip persistence — serializing the chats state and hydrating
it in a fresh session yields every chat identically (same id, title,
messages, summary and timestamps), and JERRY's _write_json followed by
_read_json over the same path returns exactly the written data. -/
theorem claim_C9 :
    (∀ (chats : List (PyStr × Soujanya.Chat)) (active : Option PyStr) (now : ℚ)
        (cid : PyStr) (c : Soujanya.Chat),
      flookup chats cid = some c →
        flookup (Soujanya.hydrate_state (Soujanya.serialize_state chats active) now).1 cid =
          some c) ∧
    (∀ (α : Type) (fs : List (PyStr × FileData α)) (path : PyStr) (v : α) (dflt : α),
      Jerry.read_json (Jerry.write_json fs path v) path dflt = v) := by
  constructor
  · intro chats active now cid c h
    have hh : (Soujanya.hydrate_state (Soujanya.serialize_state chats active) now).1 =
        chats.map (fun p =>
          (p.1, Soujanya.hydrate_chat p.1
            ⟨some p.2.chat_id, some p.2.title, some p.2.messages, p.2.summary,
             some p.2.created_at, some p.2.updated_at⟩ now)) := by
      simp [Soujanya.hydrate_state, Soujanya.serialize_state, List.map_map]
    rw [hh, souj_roundtrip_aux, h]
  · intro α fs path v dflt
    unfold Jerry.read_json Jerry.write_json
    rw [flookup_fwrite_self]

/-- C9 witness: a concrete chat with messages, a cached summary and distinct
timestamps survives the serialize/hydrate round trip unchanged. -/
theorem claim_C9_witness :
    flookup (Soujanya.hydrate_state
        (Soujanya.serialize_state
          [(str "c1", ⟨str "c1", str "Trip", [Msg.mk (str "user") (str "hi")],
            some (str "sum"), 1, 2⟩)]
          (some (str "c1"))) 99).1 (str "c1") =
      some ⟨str "c1", str "Trip", [Msg.mk (str "user") (str "hi")], some (str "sum"), 1, 2⟩ :=
  claim_C9.1 [(str "c1", ⟨str "c1", str "Trip", [Msg.mk (str "user") (str "hi")],
      some (str "sum"), 1, 2⟩)] (some (str "c1")) 99 (str "c1")
    ⟨str "c1", str "Trip", [Msg.mk (str "user") (str "hi")], some (str "sum"), 1, 2⟩
    (by decide)

/-- Helper for C4: the comparison of the recency sort is transitive. -/
theorem descLe_trans : ∀ a b c : Soujanya.Chat, Soujanya.descLe a b = true →
    Soujanya.descLe b c = true → Soujanya.descLe a c = true := by
  intro a b c hab hbc
  simp only [Soujanya.descLe, decide_eq_true_eq] at *
  exact le_trans hbc hab

/-- Helper for C4: the comparison of the recency sort is total. -/
theorem descLe_total : ∀ a b : Soujanya.Chat,
    (Soujanya.descLe a b || Soujanya.descLe b a) = true := by
  intro a b
  simp only [Soujanya.descLe, Bool.or_eq_true, decide_eq_true_eq]
  exact (le_total b.updated_at a.updated_at)

/-- Helper for C4: the listing is a permutation of the chats. -/
theorem souj_chat_items_perm (chats : List (PyStr × Soujanya.Chat)) :
    (Soujanya.chat_items chats).Perm (chats.map Prod.snd) :=
  List.mergeSort_perm _ _

/-- Helper for C4: the listing is sorted newest-first (non-strictly). -/
theorem souj_chat_items_sorted (chats : List (PyStr × Soujanya.Chat)) :
    (Soujanya.chat_items chats).Pairwise (fun a b => b.updated_at ≤ a.updated_at) := by
  have hs := List.sorted_mergeSort descLe_trans descLe_total (chats.map Prod.snd)
  exact hs.imp (by
    intro a b h
    simpa [Soujanya.descLe, decide_eq_true_eq] using h)

/-- C4 (amended): Soujanya's chat_items listing contains all chats and is
sorted by updated_at most-recent first — strictly descending when the
updated_at values are pairwise distinct — while Karthic's list_chats ignores
modification recency entirely: re-stamping every file's modification time
arbitrarily leaves its listing unchanged (it sorts identifiers
lexicographically). -/
theorem claim_C4 :
    (∀ chats : List (PyStr × Soujanya.Chat),
      (Soujanya.chat_items chats).Perm (chats.map Prod.snd) ∧
      (Soujanya.chat_items chats).Pairwise (fun a b => b.updated_at ≤ a.updated_at)) ∧
    (∀ chats : List (PyStr × Soujanya.Chat),
      ((chats.map Prod.snd).map Soujanya.Chat.updated_at).Pairwise (fun x y => x ≠ y) →
        (Soujanya.chat_items chats).Pairwise (fun a b => b.updated_at < a.updated_at)) ∧
    (∀ (fs : Karthic.KFs) (f : PyStr → Karthic.KChat × Nat → Nat),
      Karthic.list_chats (fs.map (fun p => (p.1, (p.2.1, f p.1 p.2)))) =
        Karthic.list_chats fs) := by
  refine ⟨?_, ?_, ?_⟩
  · intro chats
    exact ⟨souj_chat_items_perm chats, souj_chat_items_sorted chats⟩
  · intro chats hne
    have hne2 : (chats.map Prod.snd).Pairwise (fun a b => a.updated_at ≠ b.updated_at) :=
      (List.pairwise_map).mp hne
    have hne3 : (Soujanya.chat_items chats).Pairwise
        (fun a b => a.updated_at ≠ b.updated_at) :=
      ((souj_chat_items_perm chats).pairwise_iff (by
        intro x y h
        exact h.symm)).mpr hne2
    have hand := (souj_chat_items_sorted chats).and hne3
    exact hand.imp (by
      intro a b h
      exact lt_of_le_of_ne h.1 (Ne.symm h.2))
  · intro fs f
    unfold Karthic.list_chats
    rw [List.map_map]
    rfl

/-- C4 witness: three chats with pairwise distinct updated_at values are
listed by chat_items in strictly descending updated_at order. -/
theorem claim_C4_witness :
    (Soujanya.chat_items
        [(str "a", ⟨str "a", str "A", [], none, 0, 1⟩),
         (str "b", ⟨str "b", str "B", [], none, 0, 3⟩),
         (str "c", ⟨str "c", str "C", [], none, 0, 2⟩)]).Pairwise
      (fun a b => b.updated_at < a.updated_at) :=
  claim_C4.2.1
    [(str "a", ⟨str "a", str "A", [], none, 0, 1⟩),
     (str "b", ⟨str "b", str "B", [], none, 0, 3⟩),
     (str "c", ⟨str "c", str "C", [], none, 0, 2⟩)] (by decide)

/-- C4 counterexample: in Karthic's store two chats created by the New-Chat
button are listed in ascending identifier order, i.e. oldest first: the head
of list_chats is the file with modification time 1 while the most recently
modified file (mtime 2) comes last, so the listing is not
most-recently-updated first. -/
theorem claim_C4_cex :
    Karthic.list_chats
        (Karthic.save_chat
          (Karthic.save_chat [] (str "20240101000000") ⟨str "Chat A", []⟩ 1)
          (str "20240102000000") ⟨str "Chat B", []⟩ 2) =
      [str "20240101000000", str "20240102000000"] ∧
    (flookup
        (Karthic.save_chat
          (Karthic.save_chat [] (str "20240101000000") ⟨str "Chat A", []⟩ 1)
          (str "20240102000000") ⟨str "Chat B", []⟩ 2)
        (Karthic.jsonName (str "20240101000000"))).map Prod.snd = some 1 ∧
    (flookup
        (Karthic.save_chat
          (Karthic.save_chat [] (str "20240101000000") ⟨str "Chat A", []⟩ 1)
          (str "20240102000000") ⟨str "Chat B", []⟩ 2)
        (Karthic.jsonName (str "20240102000000"))).map Prod.snd = some 2 ∧
    (1 : Nat) < 2 := by
  refine ⟨?_, by decide, by decide, by decide⟩
  unfold Karthic.list_chats
  rw [show ((((Karthic.save_chat
        (Karthic.save_chat [] (str "20240101000000") ⟨str "Chat A", []⟩ 1)
        (str "20240102000000") ⟨str "Chat B", []⟩ 2).map Prod.fst).filter
      (fun f => (str ".json").isSuffixOf f)).map (fun f => f.take (f.length - 5))) =
    [str "20240101000000", str "20240102000000"] from by decide]
  exact List.mergeSort_of_sorted (by decide)
